import Mathlib

/-
Shallow embedding of `toggl/utils/bootstrap.py` (class `ConfigBootstrap`):
the first-run configuration wizard of toggl-cli.  External collaborators
(the inquirer prompt engine, click output, and the remote Toggl API) are
modelled as explicit parameters or event scripts; the control flow and the
answer-normalisation logic are translated from the source.
-/

namespace Bootstrap

/-- An apostrophe character, used inside the sentinel strings. -/
def apos : String := String.singleton (Char.ofNat 39)

/-- `ConfigBootstrap.KEEP_TOGGLS_DEFAULT_WORKSPACE`. -/
def KEEP_TOGGLS_DEFAULT_WORKSPACE : String :=
  "-- Keep Toggl" ++ apos ++ "s default --"

/-- `ConfigBootstrap.SYSTEM_TIMEZONE`. -/
def SYSTEM_TIMEZONE : String :=
  "-- Use system" ++ apos ++ "s timezone --"

/-- `ConfigBootstrap.API_TOKEN_OPTION`. -/
def API_TOKEN_OPTION : String := "API token"

/-- `ConfigBootstrap.CREDENTIALS_OPTION`. -/
def CREDENTIALS_OPTION : String := "Credentials"

/-- The parts of the operating-system environment that `os.path.expanduser`
consults: the resolved home directory of the current user (`$HOME`, assumed
set, as on every interactive POSIX session) and the password-database lookup
used for the `~user` form (`pwd.getpwnam`, `none` models `KeyError`). -/
structure OsEnv where
  home : String
  pwdir : String → Option String

/-- `str.rstrip('/')`: drop every trailing slash. -/
def rstripSlashes (s : String) : String :=
  String.mk ((s.toList.reverse.dropWhile (fun c => c = '/')).reverse)

/-- `posixpath.expanduser`: a path that does not start with `~` is returned
unchanged; `~` and `~/rest` expand with the home directory; `~user` and
`~user/rest` expand with that user's directory from the password database,
or are returned unchanged when the user is unknown.  The expanded home has
trailing slashes stripped, and an empty result becomes `/`. -/
def expanduser (env : OsEnv) (p : String) : String :=
  match p.toList with
  | [] => p
  | c :: rest =>
    if c = '~' then
      let i : Nat :=
        match rest.findIdx? (fun ch => ch = '/') with
        | some j => j + 1
        | none => (c :: rest).length
      if i = 1 then
        let r := rstripSlashes env.home ++ String.mk ((c :: rest).drop i)
        if r = "" then "/" else r
      else
        match env.pwdir (String.mk (rest.take (i - 1))) with
        | none => p
        | some d =>
          let r := rstripSlashes d ++ String.mk ((c :: rest).drop i)
          if r = "" then "/" else r
    else p

/-- The raw answers handed to `_map_answers` in `start()`: the resolved api
token plus the four preference answers.  `file_logging_path` is an `Option`
because `answers.get('file_logging_path')` yields `None` when the key is
absent. -/
structure Answers where
  api_token : String
  file_logging : Bool
  timezone : String
  default_workspace : String
  file_logging_path : Option String
  deriving DecidableEq, Repr

/-- The exceptions `_map_answers` can raise: `os.path.expanduser(None)`
raises a `TypeError`, and the by-name workspace lookup raises when the
workspace cannot be resolved. -/
inductive MapErr where
  | pathTypeError
  | workspaceNotFound
  deriving DecidableEq, Repr

/-- The dict returned by `_map_answers`.  The keys `api_token` and
`file_logging` are always present; the other three are present exactly when
the corresponding `Option` field is `some`.  `_map_answers` writes no key
besides these five. -/
structure ConfigOut where
  api_token : String
  file_logging : Bool
  timezone : Option String
  file_logging_path : Option String
  default_wid : Option String
  deriving DecidableEq, Repr

/-- `ConfigBootstrap._map_answers`.  `lookupWs` models (from the spec:
`getWorkspaceByName(token, name) -> {id, name}`, fails if not found) the
call `Workspace.objects.get(name=..., config=...)` whose implementation is
outside this file; it receives the api token of the temporary config and the
chosen workspace name and yields the workspace id, `none` when the name
cannot be resolved. -/
def map_answers (env : OsEnv) (lookupWs : String → String → Option Nat)
    (a : Answers) : Except MapErr ConfigOut :=
  let tz : Option String :=
    if a.timezone = SYSTEM_TIMEZONE then some ("local") else none
  let flpStep : Except MapErr (Option String) :=
    if a.file_logging then
      match a.file_logging_path with
      | none => Except.error MapErr.pathTypeError
      | some p => Except.ok (some (expanduser env p))
    else Except.ok none
  match flpStep with
  | Except.error e => Except.error e
  | Except.ok flp =>
    let widStep : Except MapErr (Option String) :=
      if a.default_workspace ≠ KEEP_TOGGLS_DEFAULT_WORKSPACE then
        match lookupWs a.api_token a.default_workspace with
        | none => Except.error MapErr.workspaceNotFound
        | some wid => Except.ok (some (toString wid))
      else Except.ok none
    match widStep with
    | Except.error e => Except.error e
    | Except.ok dwid =>
      Except.ok { api_token := a.api_token, file_logging := a.file_logging,
                  timezone := tz, file_logging_path := flp,
                  default_wid := dwid }

/-- A workspace record as returned by the remote listing
(`Workspace.objects.all`). -/
structure Workspace where
  id : Nat
  name : String
  deriving DecidableEq, Repr

/-- The mutable state of a `ConfigBootstrap` instance: `self.workspaces`,
initialised to `None` in `__init__`. -/
structure WizState where
  workspaces : Option (List String)
  deriving DecidableEq, Repr

/-- `ConfigBootstrap._get_workspaces`.  `remote` models (from the spec:
`listWorkspaces(token) -> ordered sequence of {id, name}`) the remote call
`Workspace.objects.all(config=...)`, keyed by the api token of the temporary
config.  Returns the choice list, the updated instance state, and the number
of remote listing calls performed by this invocation. -/
def get_workspaces (remote : String → List Workspace) (s : WizState)
    (api_token : String) : List String × WizState × Nat :=
  match s.workspaces with
  | none =>
    let ws := KEEP_TOGGLS_DEFAULT_WORKSPACE :: (remote api_token).map Workspace.name
    (ws, { workspaces := some ws }, 1)
  | some ws => (ws, s, 0)

/-- A sequence of `_get_workspaces` calls on one instance: the list of
returned choice lists, the final state, and the total number of remote
listing calls. -/
def runGetWorkspaces (remote : String → List Workspace) :
    WizState → List String → List (List String) × WizState × Nat
  | s, [] => ([], s, 0)
  | s, t :: ts =>
    let r := get_workspaces remote s t
    let rest := runGetWorkspaces remote r.2.1 ts
    (r.1 :: rest.1, rest.2.1, r.2.2 + rest.2.2)

/-- One round of the credentials loop in `_get_api_token`, as the prompt
engine and the remote exchange behave on that round: the user either cancels
the username/password prompt, or submits a pair whose exchange
(`convert_credentials_to_api_token`) raises `TogglAuthenticationException`
(`Except.error ()`) or returns a token (`Except.ok t`). -/
inductive CredEvent where
  | cancel
  | submit (outcome : Except Unit String)
  deriving Repr

/-- A submission whose token exchange fails with the authentication error. -/
def failSubmit : CredEvent := CredEvent.submit (Except.error ())

/-- What a run of the credentials loop did: `result = none` means the script
ended with the loop still running (about to re-prompt); `some none` means the
loop returned `None` (user cancelled); `some (some t)` means it returned the
token `t`.  `notices` counts the printed retry messages, `prompts` the
username/password prompts issued, `exchanges` the remote exchange calls. -/
structure CredRun where
  result : Option (Option String)
  notices : Nat
  prompts : Nat
  exchanges : Nat
  deriving DecidableEq, Repr

/-- The `while True` credentials loop of `_get_api_token`, run against a
script of rounds.  Each round issues one prompt; a cancellation returns
`None`; a successful exchange returns the token; a failed exchange prints
the retry notice and loops. -/
def cred_loop : List CredEvent → CredRun
  | [] => { result := none, notices := 0, prompts := 0, exchanges := 0 }
  | e :: rest =>
    match e with
    | CredEvent.cancel =>
      { result := some none, notices := 0, prompts := 1, exchanges := 0 }
    | CredEvent.submit (Except.ok t) =>
      { result := some (some t), notices := 0, prompts := 1, exchanges := 1 }
    | CredEvent.submit (Except.error _) =>
      let r := cred_loop rest
      { result := r.result, notices := r.notices + 1,
        prompts := r.prompts + 1, exchanges := r.exchanges + 1 }

/-- The auth-method choice of `_get_api_token`. -/
inductive AuthChoice where
  | token
  | credentials
  deriving DecidableEq, Repr

/-- The external interactions of one `_get_api_token` run: the result of the
auth-method choice (`none` = cancelled), what the API-token password prompt
would return and how many validity checks its inline validator would issue,
and the script of the credentials loop. -/
structure TokenFlow where
  choice : Option AuthChoice
  tokenAnswer : Option String
  tokenValidations : Nat
  credScript : List CredEvent
  deriving Repr

/-- `ConfigBootstrap._get_api_token`, returning the result (`none` = the run
did not finish within the script, `some none` = returned `None`,
`some (some t)` = returned token `t`), the number of prompt calls issued
after the auth-method choice, and the number of remote calls issued. -/
def get_api_token (f : TokenFlow) : Option (Option String) × Nat × Nat :=
  match f.choice with
  | none => (some none, 0, 0)
  | some AuthChoice.token => (some f.tokenAnswer, 1, f.tokenValidations)
  | some AuthChoice.credentials =>
    let r := cred_loop f.credScript
    (r.result, r.prompts, r.exchanges)

/-- What `ConfigBootstrap._exit` does: print the failure notice via
`click.secho` and call `exit(-1)`. -/
structure ExitBehavior where
  noticePrinted : Bool
  code : Int
  deriving DecidableEq, Repr

/-- `ConfigBootstrap._exit`. -/
def exitRun : ExitBehavior := { noticePrinted := true, code := -1 }

/-- The preference answers collected by the question batch in `start()`
(`inquirer.prompt(questions)`), when not cancelled. -/
structure Prefs where
  default_workspace : String
  timezone : String
  file_logging : Bool
  file_logging_path : Option String
  deriving DecidableEq, Repr

/-- The outcome of `start()`: either the process was terminated through
`_exit`, or `_map_answers` ran (returning its dict or raising). -/
inductive StartResult where
  | aborted (e : ExitBehavior)
  | finished (r : Except MapErr ConfigOut)
  deriving Repr

/-- `ConfigBootstrap.start`, after the banner: resolve the token (its result
is `tok`, `none` = `_get_api_token` returned `None`), abort when it is
`None`; ask the preference batch (its result is `prefs`, `none` = cancelled),
abort when cancelled; otherwise normalise via `_map_answers` with the token
merged into the answers. -/
def start (env : OsEnv) (lookupWs : String → String → Option Nat)
    (tok : Option String) (prefs : Option Prefs) : StartResult :=
  match tok with
  | none => StartResult.aborted exitRun
  | some t =>
    match prefs with
    | none => StartResult.aborted exitRun
    | some p =>
      StartResult.finished (map_answers env lookupWs
        { api_token := t, file_logging := p.file_logging,
          timezone := p.timezone, default_workspace := p.default_workspace,
          file_logging_path := p.file_logging_path })

/-- A concrete environment used by concrete evaluations. -/
def exEnv : OsEnv := { home := "/home/u", pwdir := fun _ => none }

/-- A concrete workspace lookup that resolves no name. -/
def exLookupNone : String → String → Option Nat := fun _ _ => none

/-- A concrete answers record with a plain (non-sentinel) timezone answer. -/
def ansPrague : Answers :=
  { api_token := "t", file_logging := false, timezone := "Europe/Prague",
    default_workspace := KEEP_TOGGLS_DEFAULT_WORKSPACE,
    file_logging_path := none }

/-- A concrete workspace lookup that resolves the name `W` to id 42. -/
def exLookupW : String → String → Option Nat :=
  fun _ n => if n = "W" then some 42 else none

/-- A concrete answers record choosing the workspace named `W`. -/
def ansW : Answers :=
  { api_token := "t", file_logging := false, timezone := "UTC",
    default_workspace := "W", file_logging_path := none }

/-- The config produced for `ansW` under `exLookupW`. -/
def cfgW : ConfigOut :=
  { api_token := "t", file_logging := false, timezone := none,
    file_logging_path := none, default_wid := some (toString (42 : Nat)) }

/-- A concrete answers record with file logging enabled and a `~/` path. -/
def ansLog : Answers :=
  { api_token := "t", file_logging := true, timezone := SYSTEM_TIMEZONE,
    default_workspace := KEEP_TOGGLS_DEFAULT_WORKSPACE,
    file_logging_path := some ("~/.toggl_log") }

/-- The config produced for `ansLog` under `exEnv`. -/
def cfgLog : ConfigOut :=
  { api_token := "t", file_logging := true, timezone := some ("local"),
    file_logging_path := some ("/home/u/.toggl_log"), default_wid := none }

/-- A concrete answers record with file logging enabled but no path answer. -/
def ansNoPath : Answers :=
  { api_token := "t", file_logging := true, timezone := "UTC",
    default_workspace := KEEP_TOGGLS_DEFAULT_WORKSPACE,
    file_logging_path := none }

end Bootstrap

namespace Bootstrap

/-- Closed form of `_map_answers`: the path step fails when file logging is
on but no path answer exists, then the workspace step fails when a
non-sentinel workspace cannot be resolved, and otherwise the returned dict
is determined field by field. -/
theorem map_answers_eq (env : OsEnv) (lookupWs : String → String → Option Nat)
    (a : Answers) :
    map_answers env lookupWs a =
      if a.file_logging ∧ a.file_logging_path = none then
        Except.error MapErr.pathTypeError
      else if a.default_workspace ≠ KEEP_TOGGLS_DEFAULT_WORKSPACE ∧
              lookupWs a.api_token a.default_workspace = none then
        Except.error MapErr.workspaceNotFound
      else
        Except.ok
          { api_token := a.api_token, file_logging := a.file_logging,
            timezone :=
              if a.timezone = SYSTEM_TIMEZONE then some ("local") else none,
            file_logging_path :=
              if a.file_logging then
                Option.map (expanduser env) a.file_logging_path
              else none,
            default_wid :=
              if a.default_workspace = KEEP_TOGGLS_DEFAULT_WORKSPACE then none
              else Option.map (fun wid => toString wid)
                     (lookupWs a.api_token a.default_workspace) } := by
  unfold map_answers
  cases hfl : a.file_logging <;> cases hp : a.file_logging_path <;>
    by_cases hws : a.default_workspace = KEEP_TOGGLS_DEFAULT_WORKSPACE <;>
      cases hlk : lookupWs a.api_token a.default_workspace <;>
        simp [hfl, hp, hws, hlk]

/-- C1: the claim says a non-sentinel timezone answer is passed through into
the returned config; the code only writes the `timezone` key in the sentinel
case, so the validated zone name "Europe/Prague" is dropped: the returned
dict has no `timezone` key at all. -/
theorem timezone_answer_dropped :
    map_answers exEnv exLookupNone ansPrague =
      Except.ok
        { api_token := "t", file_logging := false, timezone := none,
          file_logging_path := none, default_wid := none } ∧
    ansPrague.timezone ≠ SYSTEM_TIMEZONE := by
  exact ⟨rfl, by decide⟩

/-- C2: with token "abc123", keep-default workspace, the system-timezone
sentinel and file logging off, `_map_answers` returns exactly the dict
`\x7bapi_token: "abc123", file_logging: false, timezone: "local"\x7d`,
with no other key present. -/
theorem end_to_end_token_default_run (env : OsEnv)
    (lookupWs : String → String → Option Nat) (p : Option String) :
    map_answers env lookupWs
      { api_token := "abc123", file_logging := false,
        timezone := SYSTEM_TIMEZONE,
        default_workspace := KEEP_TOGGLS_DEFAULT_WORKSPACE,
        file_logging_path := p } =
    Except.ok
      { api_token := "abc123", file_logging := false,
        timezone := some ("local"), file_logging_path := none,
        default_wid := none } := by
  rw [map_answers_eq]
  simp

/-- C3: in every dict `_map_answers` returns, the `file_logging_path` key is
present iff the `file_logging` answer is true, and when present its value is
`os.path.expanduser` of the supplied path answer; when `file_logging` is
false the key is omitted even if a path answer was collected. -/
theorem file_logging_path_key (env : OsEnv)
    (lookupWs : String → String → Option Nat) (a : Answers) (cfg : ConfigOut)
    (h : map_answers env lookupWs a = Except.ok cfg) :
    (cfg.file_logging_path ≠ none ↔ a.file_logging = true) ∧
    cfg.file_logging_path =
      (if a.file_logging then Option.map (expanduser env) a.file_logging_path
       else none) := by
  rw [map_answers_eq] at h
  split at h
  · exact Except.noConfusion h
  · rename_i hpath
    split at h
    · exact Except.noConfusion h
    · injection h with h2
      subst h2
      refine ⟨?_, rfl⟩
      cases hfl : a.file_logging with
      | false => simp [hfl]
      | true =>
        cases hp : a.file_logging_path with
        | none => exact absurd ⟨hfl, hp⟩ hpath
        | some q => simp [hfl, hp]

/-- C3 witness: a concrete successful run with file logging on and the
default path answer, whose returned dict carries the expanded path. -/
theorem file_logging_path_key_witness :
    (cfgLog.file_logging_path ≠ none ↔ ansLog.file_logging = true) ∧
    cfgLog.file_logging_path =
      (if ansLog.file_logging then
         Option.map (expanduser exEnv) ansLog.file_logging_path
       else none) :=
  file_logging_path_key exEnv exLookupNone ansLog cfgLog (by rfl)

/-- C4: in every dict `_map_answers` returns, the `default_wid` key is
present iff the workspace answer is not the keep-default sentinel; when
present its value is the string form of the id produced by the by-name
remote lookup, and when that lookup cannot resolve the name, `_map_answers`
raises instead of returning any dict. -/
theorem default_wid_key (env : OsEnv)
    (lookupWs : String → String → Option Nat) (a : Answers) :
    (∀ cfg, map_answers env lookupWs a = Except.ok cfg →
       ((cfg.default_wid ≠ none ↔
           a.default_workspace ≠ KEEP_TOGGLS_DEFAULT_WORKSPACE) ∧
        (∀ wid, lookupWs a.api_token a.default_workspace = some wid →
           a.default_workspace ≠ KEEP_TOGGLS_DEFAULT_WORKSPACE →
           cfg.default_wid = some (toString wid)))) ∧
    (a.default_workspace ≠ KEEP_TOGGLS_DEFAULT_WORKSPACE →
     lookupWs a.api_token a.default_workspace = none →
     ∀ cfg, map_answers env lookupWs a ≠ Except.ok cfg) := by
  constructor
  · intro cfg h
    rw [map_answers_eq] at h
    split at h
    · exact Except.noConfusion h
    · rename_i hnot
      split at h
      · exact Except.noConfusion h
      · rename_i hres
        injection h with h2
        subst h2
        constructor
        · by_cases hws : a.default_workspace = KEEP_TOGGLS_DEFAULT_WORKSPACE
          · simp [hws]
          · cases hlk : lookupWs a.api_token a.default_workspace with
            | none => exact absurd ⟨hws, hlk⟩ hres
            | some wid => simp [hws, hlk]
        · intro wid hlk hws
          simp [hws, hlk]
  · intro hws hlk cfg h
    rw [map_answers_eq] at h
    split at h
    · exact Except.noConfusion h
    · split at h
      · exact Except.noConfusion h
      · rename_i hres
        exact hres ⟨hws, hlk⟩

/-- C4 witness: a concrete run choosing the workspace named `W`, which the
lookup resolves to id 42; the returned dict carries `default_wid = "42"`. -/
theorem default_wid_key_witness :
    map_answers exEnv exLookupW ansW = Except.ok cfgW ∧
    cfgW.default_wid = some (toString (42 : Nat)) ∧
    cfgW.default_wid ≠ none := by
  have h := (default_wid_key exEnv exLookupW ansW).1 cfgW (by rfl)
  exact ⟨by rfl, h.2 42 (by rfl) (by decide), h.1.mpr (by decide)⟩

/-- C10: when the `file_logging` answer is true but no path answer exists,
`_map_answers` raises the `TypeError` of `os.path.expanduser(None)` and
returns no dict at all. -/
theorem missing_log_path_raises (env : OsEnv)
    (lookupWs : String → String → Option Nat) (a : Answers)
    (hfl : a.file_logging = true) (hp : a.file_logging_path = none) :
    map_answers env lookupWs a = Except.error MapErr.pathTypeError ∧
    ∀ cfg, map_answers env lookupWs a ≠ Except.ok cfg := by
  rw [map_answers_eq]
  simp [hfl, hp]

/-- C10 witness: the concrete failing run. -/
theorem missing_log_path_raises_witness :
    map_answers exEnv exLookupNone ansNoPath =
      Except.error MapErr.pathTypeError :=
  (missing_log_path_raises exEnv exLookupNone ansNoPath rfl rfl).1

/-- Runs of `_get_workspaces` whose cache is already populated return the
cached list and perform no remote call. -/
theorem runGetWorkspaces_cached (remote : String → List Workspace)
    (ws : List String) (ts : List String) :
    runGetWorkspaces remote { workspaces := some ws } ts =
      (List.replicate ts.length ws, { workspaces := some ws }, 0) := by
  induction ts with
  | nil => rfl
  | cons t ts ih => simp [runGetWorkspaces, get_workspaces, ih, List.replicate]

/-- C5: over any sequence of `_get_workspaces` calls on one fresh instance,
with any tokens, exactly one remote listing call happens (on the first
invocation) and every call returns the list computed then, even when a later
call passes a different token. -/
theorem workspaces_memoized (remote : String → List Workspace) (t : String)
    (ts : List String) :
    (runGetWorkspaces remote { workspaces := none } (t :: ts)).2.2 = 1 ∧
    (runGetWorkspaces remote { workspaces := none } (t :: ts)).1 =
      List.replicate (ts.length + 1)
        (KEEP_TOGGLS_DEFAULT_WORKSPACE :: (remote t).map Workspace.name) := by
  constructor <;>
    simp [runGetWorkspaces, get_workspaces, runGetWorkspaces_cached,
          List.replicate]

/-- C6: the choice list built by `_get_workspaces` is the keep-default
sentinel followed by each listed workspace name, in the order the remote
listing returned them. -/
theorem workspace_choices_order (remote : String → List Workspace)
    (t : String) :
    (get_workspaces remote { workspaces := none } t).1 =
      KEEP_TOGGLS_DEFAULT_WORKSPACE :: (remote t).map Workspace.name := rfl

/-- One failed submission at the head of the credentials loop adds one retry
notice, one prompt and one exchange, and the loop continues. -/
theorem cred_loop_fail_cons (rest : List CredEvent) :
    cred_loop (failSubmit :: rest) =
      { result := (cred_loop rest).result,
        notices := (cred_loop rest).notices + 1,
        prompts := (cred_loop rest).prompts + 1,
        exchanges := (cred_loop rest).exchanges + 1 } := rfl

/-- A block of failed submissions at the head of the credentials loop adds
one retry notice, one prompt and one exchange per failure, and the loop then
continues with the rest of the script. -/
theorem cred_loop_fails_append (k : Nat) (rest : List CredEvent) :
    cred_loop (List.replicate k failSubmit ++ rest) =
      { result := (cred_loop rest).result,
        notices := (cred_loop rest).notices + k,
        prompts := (cred_loop rest).prompts + k,
        exchanges := (cred_loop rest).exchanges + k } := by
  induction k with
  | zero => simp
  | succ k ih =>
    rw [List.replicate_succ, List.cons_append, cred_loop_fail_cons, ih]
    simp only [CredRun.mk.injEq, true_and]
    refine ⟨?_, ?_, ?_⟩ <;> omega

/-- C7: in the credentials branch, every failed exchange prints one retry
notice and re-asks without terminating (any number k of failures leaves the
loop running, with k notices and k prompts); cancelling the prompt returns
None; a successful exchange returns the token; and three invalid submissions
followed by a valid one yield the token with exactly three retry notices. -/
theorem credentials_retry_loop (k : Nat) (t : String) :
    (cred_loop (List.replicate k failSubmit)).result = none ∧
    (cred_loop (List.replicate k failSubmit)).notices = k ∧
    (cred_loop (List.replicate k failSubmit)).prompts = k ∧
    cred_loop (List.replicate k failSubmit ++ [CredEvent.cancel]) =
      { result := some none, notices := k, prompts := k + 1,
        exchanges := k } ∧
    cred_loop
        (List.replicate k failSubmit ++ [CredEvent.submit (Except.ok t)]) =
      { result := some (some t), notices := k, prompts := k + 1,
        exchanges := k + 1 } ∧
    cred_loop
        (List.replicate 3 failSubmit ++ [CredEvent.submit (Except.ok t)]) =
      { result := some (some t), notices := 3, prompts := 4,
        exchanges := 4 } := by
  have hnil := cred_loop_fails_append k []
  rw [List.append_nil] at hnil
  refine ⟨?_, ?_, ?_, ?_, ?_, ?_⟩
  · simp [hnil, cred_loop]
  · simp [hnil, cred_loop]
  · simp [hnil, cred_loop]
  · rw [cred_loop_fails_append k [CredEvent.cancel]]
    simp [cred_loop, Nat.add_comm]
  · rw [cred_loop_fails_append k [CredEvent.submit (Except.ok t)]]
    simp [cred_loop, Nat.add_comm]
  · rw [cred_loop_fails_append 3 [CredEvent.submit (Except.ok t)]]
    simp [cred_loop]

/-- C8: when the auth-method choice is cancelled, `_get_api_token` returns
None immediately, issuing zero further prompts and zero remote calls. -/
theorem auth_choice_cancel_aborts (f : TokenFlow) (h : f.choice = none) :
    get_api_token f = (some none, 0, 0) := by
  unfold get_api_token
  rw [h]

/-- C8 witness: the concrete run that cancels the very first choice. -/
theorem auth_choice_cancel_aborts_witness :
    get_api_token
      { choice := none, tokenAnswer := none, tokenValidations := 0,
        credScript := [] } = (some none, 0, 0) :=
  auth_choice_cancel_aborts
    { choice := none, tokenAnswer := none, tokenValidations := 0,
      credScript := [] } rfl

/-- C9: when credential resolution returns None or the preference batch is
cancelled, `start` runs `_exit`: the failure notice is printed, the process
terminates with the non-zero status -1, and no config dict is returned. -/
theorem abort_exits_nonzero (env : OsEnv)
    (lookupWs : String → String → Option Nat) (tok : Option String)
    (prefs : Option Prefs) (h : tok = none ∨ prefs = none) :
    start env lookupWs tok prefs = StartResult.aborted exitRun ∧
    exitRun.noticePrinted = true ∧ exitRun.code ≠ 0 ∧
    ∀ r, start env lookupWs tok prefs ≠ StartResult.finished r := by
  have hab : start env lookupWs tok prefs = StartResult.aborted exitRun := by
    rcases h with h | h
    · rw [h]
      rfl
    · rw [h]
      unfold start
      cases tok <;> rfl
  refine ⟨hab, rfl, by decide, ?_⟩
  intro r hr
  rw [hab] at hr
  exact StartResult.noConfusion hr

/-- C9 witness: the concrete run where the preference batch is cancelled. -/
theorem abort_exits_nonzero_witness :
    start exEnv exLookupNone (some ("abc123")) none =
      StartResult.aborted exitRun ∧
    exitRun.noticePrinted = true ∧ exitRun.code ≠ 0 := by
  have h := abort_exits_nonzero exEnv exLookupNone (some ("abc123")) none
    (Or.inr rfl)
  exact ⟨h.1, h.2.1, h.2.2.1⟩

end Bootstrap
